import Mathlib

/-!
Shallow embedding of the spin-to-win cart feature (React/TypeScript sources
under `spinning-wheel/src`).  Randomness (`Math.random()`), the generated
coupon-code suffix and `Date.now()` are passed in as explicit parameters;
React state hooks become explicit state passing.  JS `number` values that the
data model declares as reals/decimals are modelled by `ℚ`, integer-valued
fields by `ℤ`/`ℕ`, and fallible values (`null`/`undefined`) by `Option`.
-/

namespace SpinWheel

/-- The `Prize` record from `types.ts`. -/
structure Prize where
  id : String
  label : String
  color : String
  discountPercent : ℤ
  probability : ℚ
deriving DecidableEq, Repr

/-- The `Coupon` record from `types.ts`. -/
structure Coupon where
  code : String
  percent : ℤ
  applied : Bool
  wonAt : ℤ
deriving DecidableEq, Repr

/-- The `CartItem` record from `types.ts`. -/
structure CartItem where
  id : String
  name : String
  price : ℚ
  quantity : ℕ
deriving DecidableEq, Repr

/-! ## useCoupon.ts -/

/-- The `generateCouponCode` from `useCoupon.ts`: `SPIN-{percent}-{random4chars}`;
the random four characters are an explicit parameter. -/
def generateCouponCode (percent : ℤ) (randomChars : String) : String :=
  "SPIN-" ++ toString percent ++ "-" ++ randomChars

/-- The `createCouponFromPrize` from `useCoupon.ts`.  Returns the function's
return value together with the coupon state after the call
(`setCoupon` is state passing here).  `randomChars` feeds the code
generator and `now` stands for `Date.now()`. -/
def createCouponFromPrize (randomChars : String) (now : ℤ) (prize : Prize)
    (coupon : Option Coupon) : Option Coupon × Option Coupon :=
  if prize.discountPercent ≤ 0 then (none, coupon)
  else
    let newCoupon : Coupon :=
      { code := generateCouponCode prize.discountPercent randomChars
        percent := prize.discountPercent
        applied := false
        wonAt := now }
    (some newCoupon, some newCoupon)

/-- The `applyCoupon` from `useCoupon.ts`: mark the live coupon applied. -/
def applyCoupon (coupon : Option Coupon) : Option Coupon :=
  coupon.map fun c => { c with applied := true }

/-- The `ignoreCoupon` from `useCoupon.ts`: mark the live coupon unapplied. -/
def ignoreCoupon (coupon : Option Coupon) : Option Coupon :=
  coupon.map fun c => { c with applied := false }

/-- The `clearCoupon` from `useCoupon.ts`. -/
def clearCoupon (_coupon : Option Coupon) : Option Coupon :=
  none

/-- The `hasSpun` from `useCoupon.ts`: `coupon !== null`. -/
def hasSpun (coupon : Option Coupon) : Bool :=
  coupon.isSome

/-- The `hasUnappliedCoupon` from `useCoupon.ts`:
`coupon !== null && !coupon.applied && coupon.percent > 0`. -/
def hasUnappliedCoupon (coupon : Option Coupon) : Bool :=
  match coupon with
  | none => false
  | some c => !c.applied && decide (0 < c.percent)

/-- The zero-discount "Try Again!" entry of the `PRIZES` table
(`CartPage.tsx`). -/
def tryAgainPrize : Prize :=
  { id := "prize-0", label := "Try Again!", color := "#A69080"
    discountPercent := 0, probability := 0.2 }

/-- The 25%-off entry of the `PRIZES` table (`CartPage.tsx`). -/
def prize25 : Prize :=
  { id := "prize-25", label := "25% Off", color := "#8B7355"
    discountPercent := 25, probability := 0.05 }

/-! ## useCart.ts -/

/-- Cart state held by `useCart`: the item list plus the active discount
fields (`discountPercent`/`discountLabel` are `undefined` when absent). -/
structure CartState where
  items : List CartItem
  discountPercent : Option ℚ
  discountLabel : Option String
deriving DecidableEq, Repr

/-- The `subtotal` from `useCart.ts`:
`items.reduce((sum, item) => sum + item.price * item.quantity, 0)`. -/
def cartSubtotal (items : List CartItem) : ℚ :=
  items.foldl (fun sum item => sum + item.price * (item.quantity : ℚ)) 0

/-- The `discount` from `useCart.ts`: `if (!discountPercent) return 0;` then
`subtotal * (discountPercent / 100)` — the JS falsy check treats both
`undefined` and `0` as "no discount". -/
def cartDiscount (subtotal : ℚ) (discountPercent : Option ℚ) : ℚ :=
  match discountPercent with
  | none => 0
  | some p => if p = 0 then 0 else subtotal * (p / 100)

/-- The `subtotal` as a function of the cart state. -/
def subtotalOf (s : CartState) : ℚ :=
  cartSubtotal s.items

/-- The `discount` as a function of the cart state. -/
def discountOf (s : CartState) : ℚ :=
  cartDiscount (subtotalOf s) s.discountPercent

/-- The `finalTotal` from `useCart.ts`: `subtotal - discount`. -/
def finalTotalOf (s : CartState) : ℚ :=
  subtotalOf s - discountOf s

/-- The `applyDiscount` from `useCart.ts`: set both discount fields. -/
def applyDiscount (percent : ℚ) (label : String) (s : CartState) : CartState :=
  { s with discountPercent := some percent, discountLabel := some label }

/-- The `removeDiscount` from `useCart.ts`: clear both discount fields. -/
def removeDiscount (s : CartState) : CartState :=
  { s with discountPercent := none, discountLabel := none }

/-- The `updateQuantity` from `useCart.ts`: silently ignore quantities below 1. -/
def updateQuantity (itemId : String) (newQuantity : ℕ) (s : CartState) : CartState :=
  if newQuantity < 1 then s
  else
    { s with
      items := s.items.map fun item =>
        if item.id = itemId then { item with quantity := newQuantity } else item }

/-- The `removeItem` from `useCart.ts`. -/
def removeItem (itemId : String) (s : CartState) : CartState :=
  { s with items := s.items.filter fun item => item.id ≠ itemId }

/-! ## SpinWheel.tsx -/

/-- The loop inside `selectPrize`: walk the table accumulating
`cumulative += prize.probability` and return the first prize with
`random ≤ cumulative`; `none` when the walk exhausts the list. -/
def selectPrizeAux (random : ℚ) (cumulative : ℚ) : List Prize → Option Prize
  | [] => none
  | prize :: rest =>
    if random ≤ cumulative + prize.probability then some prize
    else selectPrizeAux random (cumulative + prize.probability) rest

/-- The `selectPrize` from `SpinWheel.tsx` with `Math.random()` passed in as
`random`.  When the loop finds no prize the code returns
`prizes[prizes.length - 1]`, which is `undefined` (`none`) on an empty
array. -/
def selectPrize (random : ℚ) (prizes : List Prize) : Option Prize :=
  match selectPrizeAux random 0 prizes with
  | some prize => some prize
  | none => prizes.getLast?

/-- Cumulative probability of the first `k` prizes of the table. -/
def cumProb (prizes : List Prize) (k : ℕ) : ℚ :=
  ((prizes.take k).map Prize.probability).sum

/-- The `calculateWinningAngle` from `SpinWheel.tsx`.  `numPrizes` is
`prizes.length`; `k = Math.floor(Math.random() * 5) ∈ {0,…,4}` is the
randomized extra-rotation draw, passed in explicitly. -/
def calculateWinningAngle (numPrizes : ℕ) (prizeIndex : ℕ) (k : ℕ) : ℚ :=
  let segmentAngle : ℚ := 360 / numPrizes
  let segmentCenter : ℚ := segmentAngle * prizeIndex + segmentAngle / 2
  let baseAngle : ℚ := 360 - segmentCenter + 90
  let fullRotations : ℚ := (6 + (k : ℚ)) * 360
  fullRotations + baseAngle

/-- The angular center of segment `prizeIndex` on a wheel of `numPrizes`
equal segments, as computed inside `calculateWinningAngle`. -/
def segmentCenterOf (numPrizes : ℕ) (prizeIndex : ℕ) : ℚ :=
  (360 / numPrizes) * prizeIndex + (360 / numPrizes) / 2

/-- The code's base alignment angle `360 - segmentCenter + 90`. -/
def baseAngleOf (numPrizes : ℕ) (prizeIndex : ℕ) : ℚ :=
  360 - segmentCenterOf numPrizes prizeIndex + 90

/-- Mathematical `mod 360` on rationals (JS `%` agrees with it on the
non-negative inputs that arise here). -/
def qmod360 (x : ℚ) : ℚ :=
  x - 360 * (⌊x / 360⌋ : ℚ)

/-- Modelled from the spec: the authoritative center-to-pointer conversion of
§4.2, `(360 − ((segmentCenter + 90) mod 360)) mod 360`; this formula appears
in the spec only, not in the shipped code. -/
def specPointerConversion (numPrizes : ℕ) (prizeIndex : ℕ) : ℚ :=
  qmod360 (360 - qmod360 (segmentCenterOf numPrizes prizeIndex + 90))

/-- Two angles are congruent modulo 360 degrees. -/
def AngleCongruent (a b : ℚ) : Prop :=
  ∃ k : ℤ, a - b = 360 * k

/-- Component state of `SpinWheel`: the `rotation` state hook, the
`isSpinning` flag and the `selectedPrizeRef` pending-outcome marker. -/
structure WheelState where
  rotation : ℚ
  isSpinning : Bool
  selectedPrizeRef : Option Prize
deriving DecidableEq, Repr

/-- The `handleSpin` from `SpinWheel.tsx` with both random draws passed in.
Re-entrant calls while spinning are no-ops.  On an empty table
`selectPrize` yields `undefined` and reading `selectedPrize.id` raises a
`TypeError`, modelled as `none`. -/
def handleSpin (random : ℚ) (k : ℕ) (prizes : List Prize) (s : WheelState) :
    Option WheelState :=
  if s.isSpinning then some s
  else
    match selectPrize random prizes with
    | none => none
    | some selectedPrize =>
      some { rotation := s.rotation +
               calculateWinningAngle prizes.length
                 (prizes.findIdx fun p => p.id == selectedPrize.id) k
             isSpinning := true
             selectedPrizeRef := some selectedPrize }

/-- The `handleTransitionEnd` from `SpinWheel.tsx`: on a completion signal with
a pending outcome, stop spinning, report the outcome through `onWin`
(returned as the second component) and clear the marker; otherwise do
nothing and report nothing. -/
def handleTransitionEnd (s : WheelState) : WheelState × Option Prize :=
  match s.selectedPrizeRef with
  | some prize => ({ s with isSpinning := false, selectedPrizeRef := none }, some prize)
  | none => (s, none)

/-! ## CartPage.tsx -/

/-- The 8-entry `PRIZES` table from `CartPage.tsx`. -/
def PRIZES : List Prize :=
  [{ id := "prize-30", label := "30% Off", color := "#C5A572"
     discountPercent := 30, probability := 0.02 },
   { id := "prize-5a", label := "5% Off", color := "#E8DED1"
     discountPercent := 5, probability := 0.18 },
   { id := "prize-25", label := "25% Off", color := "#8B7355"
     discountPercent := 25, probability := 0.05 },
   { id := "prize-10a", label := "10% Off", color := "#D4C4B0"
     discountPercent := 10, probability := 0.15 },
   { id := "prize-0", label := "Try Again!", color := "#A69080"
     discountPercent := 0, probability := 0.2 },
   { id := "prize-15", label := "15% Off", color := "#BFA98F"
     discountPercent := 15, probability := 0.1 },
   { id := "prize-5b", label := "5% Off", color := "#E8DED1"
     discountPercent := 5, probability := 0.18 },
   { id := "prize-20", label := "20% Off", color := "#9C8B7A"
     discountPercent := 20, probability := 0.12 }]

/-- The `CartPage` component state: the cart ledger, the live coupon, the
pending `wonPrize` and the two modal flags. -/
structure PageState where
  cart : CartState
  coupon : Option Coupon
  wonPrize : Option Prize
  isWheelModalOpen : Bool
  isWinModalOpen : Bool
deriving DecidableEq, Repr

/-- The `handleWin` from `CartPage.tsx`: store the won prize, create the coupon,
close the wheel modal and open the win modal. -/
def handleWin (randomChars : String) (now : ℤ) (prize : Prize) (s : PageState) :
    PageState :=
  { s with wonPrize := some prize
           coupon := (createCouponFromPrize randomChars now prize s.coupon).2
           isWheelModalOpen := false
           isWinModalOpen := true }

/-- The `handleApplyDiscount` from `CartPage.tsx`: push the won prize's percent
and label into the cart ledger and mark the coupon applied, then close the
win modal and clear the pending prize. -/
def handleApplyDiscountPage (s : PageState) : PageState :=
  let s1 :=
    match s.wonPrize with
    | some p =>
      if 0 < p.discountPercent then
        { s with cart := applyDiscount (p.discountPercent : ℚ) p.label s.cart
                 coupon := applyCoupon s.coupon }
      else s
    | none => s
  { s1 with isWinModalOpen := false, wonPrize := none }

/-- The `handleIgnoreDiscount` from `CartPage.tsx`. -/
def handleIgnoreDiscountPage (s : PageState) : PageState :=
  { s with coupon := ignoreCoupon s.coupon
           isWinModalOpen := false
           wonPrize := none }

/-- The `handleApplyUnapplied` from `CartPage.tsx`: push the live coupon's
percent with the label `` `${coupon.percent}% Off` `` into the ledger and
mark the coupon applied. -/
def handleApplyUnappliedPage (s : PageState) : PageState :=
  match s.coupon with
  | some c =>
    if 0 < c.percent then
      { s with cart := applyDiscount (c.percent : ℚ) (toString c.percent ++ "% Off") s.cart
               coupon := applyCoupon s.coupon }
    else s
  | none => s

/-- Initial `SpinWheel` component state: no rotation, not spinning, no
pending outcome. -/
def initialWheel : WheelState :=
  { rotation := 0, isSpinning := false, selectedPrizeRef := none }

/-- A fresh page state over an empty cart, before any spin. -/
def emptyPage : PageState :=
  { cart := { items := [], discountPercent := none, discountLabel := none }
    coupon := none
    wonPrize := none
    isWheelModalOpen := false
    isWinModalOpen := false }

end SpinWheel

namespace SpinWheel

/-- C6 helper: the new coupon built for a strictly positive discount. -/
theorem createCouponFromPrize_pos (randomChars : String) (now : ℤ) (prize : Prize)
    (coupon : Option Coupon) (h : 0 < prize.discountPercent) :
    createCouponFromPrize randomChars now prize coupon =
      (some { code := generateCouponCode prize.discountPercent randomChars
              percent := prize.discountPercent
              applied := false
              wonAt := now },
       some { code := generateCouponCode prize.discountPercent randomChars
              percent := prize.discountPercent
              applied := false
              wonAt := now }) := by
  simp [createCouponFromPrize, not_le.mpr h]

/-- C6: for a prize whose `discountPercent` is a non-negative integer,
`createCouponFromPrize` returns no coupon iff `discountPercent = 0`; otherwise
it returns, and stores as the single live coupon, a coupon with
`applied = false` and `percent` equal to the prize's `discountPercent`. -/
theorem createCouponFromPrize_none_iff_zero (randomChars : String) (now : ℤ)
    (prize : Prize) (coupon : Option Coupon) (h : 0 ≤ prize.discountPercent) :
    ((createCouponFromPrize randomChars now prize coupon).1 = none ↔
      prize.discountPercent = 0) ∧
    (prize.discountPercent ≠ 0 →
      ∃ c : Coupon,
        createCouponFromPrize randomChars now prize coupon = (some c, some c) ∧
        c.applied = false ∧ c.percent = prize.discountPercent) := by
  constructor
  · constructor
    · intro hnone
      by_contra hne
      have hpos : 0 < prize.discountPercent := lt_of_le_of_ne h (Ne.symm hne)
      rw [createCouponFromPrize_pos randomChars now prize coupon hpos] at hnone
      simp at hnone
    · intro hzero
      simp [createCouponFromPrize, hzero]
  · intro hne
    have hpos : 0 < prize.discountPercent := lt_of_le_of_ne h (Ne.symm hne)
    exact ⟨_, createCouponFromPrize_pos randomChars now prize coupon hpos, rfl, rfl⟩

/-- C6 witness: instantiation at a concrete 25%-off prize with an empty
coupon state. -/
theorem createCouponFromPrize_none_iff_zero_witness :
    (0 : ℤ) ≤ 25 ∧
    (((createCouponFromPrize "ABCD" 0
        { id := "prize-25", label := "25% Off", color := "#8B7355"
          discountPercent := 25, probability := 0.05 } none).1 = none ↔
        (25 : ℤ) = 0) ∧
      ((25 : ℤ) ≠ 0 →
        ∃ c : Coupon,
          createCouponFromPrize "ABCD" 0
            { id := "prize-25", label := "25% Off", color := "#8B7355"
              discountPercent := 25, probability := 0.05 } none = (some c, some c) ∧
          c.applied = false ∧ c.percent = 25)) :=
  ⟨by decide,
   createCouponFromPrize_none_iff_zero "ABCD" 0
     { id := "prize-25", label := "25% Off", color := "#8B7355"
       discountPercent := 25, probability := 0.05 } none (by decide)⟩

/-- C10: for a prize with `discountPercent ≤ 0`, `createCouponFromPrize`
returns `none` and leaves the stored coupon state exactly unchanged. -/
theorem createCouponFromPrize_frame (randomChars : String) (now : ℤ)
    (prize : Prize) (coupon : Option Coupon) (h : prize.discountPercent ≤ 0) :
    createCouponFromPrize randomChars now prize coupon = (none, coupon) := by
  simp [createCouponFromPrize, h]

/-- C10 witness: a zero-discount prize leaves an existing unapplied live
coupon untouched. -/
theorem createCouponFromPrize_frame_witness :
    (tryAgainPrize.discountPercent ≤ 0) ∧
    createCouponFromPrize "WXYZ" 7 tryAgainPrize
        (some { code := "SPIN-25-ABCD", percent := 25, applied := false, wonAt := 3 }) =
      (none,
       some { code := "SPIN-25-ABCD", percent := 25, applied := false, wonAt := 3 }) :=
  ⟨by decide,
   createCouponFromPrize_frame "WXYZ" 7 tryAgainPrize
     (some { code := "SPIN-25-ABCD", percent := 25, applied := false, wonAt := 3 })
     (by decide)⟩

/-- The `reduce` in `cartSubtotal`, started from any accumulator, adds the
sum of `price × quantity` over the items. -/
theorem foldl_price_quantity (items : List CartItem) (a : ℚ) :
    items.foldl (fun sum item => sum + item.price * (item.quantity : ℚ)) a =
      a + (items.map fun item => item.price * (item.quantity : ℚ)).sum := by
  induction items generalizing a with
  | nil => simp
  | cons item rest ih =>
    simp only [List.foldl_cons, List.map_cons, List.sum_cons]
    rw [ih]
    ring

/-- The `cartSubtotal` is the sum of `price × quantity` over the items. -/
theorem cartSubtotal_eq_sum (items : List CartItem) :
    cartSubtotal items = (items.map fun item => item.price * (item.quantity : ℚ)).sum := by
  rw [cartSubtotal, foldl_price_quantity]
  ring

/-- C7: for every cart item list, `subtotal` is the sum of
`price × quantity`; after `applyDiscount p` the discount is
`subtotal × (p/100)` and `finalTotal = subtotal − discount`; and whenever the
cart's subtotal is 1000, `applyDiscount 25 "25% Off"` yields discount 250 and
finalTotal 750, and a subsequent `removeDiscount` restores finalTotal to
1000. -/
theorem cart_totals_round_trip (s : CartState) (p : ℚ) (label : String) :
    subtotalOf s = (s.items.map fun item => item.price * (item.quantity : ℚ)).sum ∧
    discountOf (applyDiscount p label s) = subtotalOf s * (p / 100) ∧
    finalTotalOf (applyDiscount p label s) =
      subtotalOf s - discountOf (applyDiscount p label s) ∧
    (subtotalOf s = 1000 →
      discountOf (applyDiscount 25 "25% Off" s) = 250 ∧
      finalTotalOf (applyDiscount 25 "25% Off" s) = 750 ∧
      finalTotalOf (removeDiscount (applyDiscount 25 "25% Off" s)) = 1000) := by
  have hsub : ∀ q lbl, subtotalOf (applyDiscount q lbl s) = subtotalOf s := by
    intro q lbl; rfl
  refine ⟨cartSubtotal_eq_sum s.items, ?_, ?_, ?_⟩
  · rcases eq_or_ne p 0 with hp | hp
    · simp [discountOf, applyDiscount, cartDiscount, hp]
    · simp [discountOf, applyDiscount, cartDiscount, hp, subtotalOf]
  · rfl
  · intro h
    have hd : discountOf (applyDiscount 25 "25% Off" s) = 250 := by
      simp [discountOf, applyDiscount, cartDiscount, subtotalOf] at h ⊢
      rw [h]; norm_num
    refine ⟨hd, ?_, ?_⟩
    · rw [finalTotalOf, hsub, h, hd]; norm_num
    · rw [finalTotalOf]
      simp [removeDiscount, applyDiscount, discountOf, cartDiscount, subtotalOf] at h ⊢
      exact h

/-- C7 witness: the identities and the round trip on a concrete one-item
cart with subtotal 1000.00, discharging the round-trip hypothesis there. -/
theorem cart_totals_round_trip_witness :
    subtotalOf { items := [{ id := "item-1", name := "Desk", price := 500, quantity := 2 }],
                 discountPercent := none, discountLabel := none } = 1000 ∧
    (subtotalOf { items := [{ id := "item-1", name := "Desk", price := 500, quantity := 2 }],
                  discountPercent := none, discountLabel := none } =
        (([{ id := "item-1", name := "Desk", price := 500, quantity := 2 }] :
            List CartItem).map fun item => item.price * (item.quantity : ℚ)).sum ∧
      discountOf (applyDiscount 25 "25% Off"
          { items := [{ id := "item-1", name := "Desk", price := 500, quantity := 2 }],
            discountPercent := none, discountLabel := none }) =
        subtotalOf { items := [{ id := "item-1", name := "Desk", price := 500, quantity := 2 }],
                     discountPercent := none, discountLabel := none } * (25 / 100) ∧
      finalTotalOf (applyDiscount 25 "25% Off"
          { items := [{ id := "item-1", name := "Desk", price := 500, quantity := 2 }],
            discountPercent := none, discountLabel := none }) =
        subtotalOf { items := [{ id := "item-1", name := "Desk", price := 500, quantity := 2 }],
                     discountPercent := none, discountLabel := none } -
          discountOf (applyDiscount 25 "25% Off"
            { items := [{ id := "item-1", name := "Desk", price := 500, quantity := 2 }],
              discountPercent := none, discountLabel := none }) ∧
      (subtotalOf { items := [{ id := "item-1", name := "Desk", price := 500, quantity := 2 }],
                    discountPercent := none, discountLabel := none } = 1000 →
        discountOf (applyDiscount 25 "25% Off"
            { items := [{ id := "item-1", name := "Desk", price := 500, quantity := 2 }],
              discountPercent := none, discountLabel := none }) = 250 ∧
        finalTotalOf (applyDiscount 25 "25% Off"
            { items := [{ id := "item-1", name := "Desk", price := 500, quantity := 2 }],
              discountPercent := none, discountLabel := none }) = 750 ∧
        finalTotalOf (removeDiscount (applyDiscount 25 "25% Off"
            { items := [{ id := "item-1", name := "Desk", price := 500, quantity := 2 }],
              discountPercent := none, discountLabel := none })) = 1000)) :=
  ⟨by norm_num [subtotalOf, cartSubtotal],
   cart_totals_round_trip
     { items := [{ id := "item-1", name := "Desk", price := 500, quantity := 2 }],
       discountPercent := none, discountLabel := none } 25 "25% Off"⟩

/-- The segment center is strictly positive on a non-empty wheel. -/
theorem segmentCenterOf_pos (n i : ℕ) (hn : 1 ≤ n) :
    0 < segmentCenterOf n i := by
  have hn' : (0 : ℚ) < n := by exact_mod_cast hn
  have h1 : (0 : ℚ) ≤ (360 / (n : ℚ)) * i := by positivity
  have h2 : (0 : ℚ) < (360 / (n : ℚ)) / 2 := by positivity
  rw [segmentCenterOf]
  linarith

/-- The segment center stays below 360 degrees. -/
theorem segmentCenterOf_lt (n i : ℕ) (hn : 1 ≤ n) (hi : i < n) :
    segmentCenterOf n i < 360 := by
  have hn' : (0 : ℚ) < n := by exact_mod_cast hn
  have hpos : (0 : ℚ) < 360 / (n : ℚ) := by positivity
  have hi' : (i : ℚ) ≤ (n : ℚ) - 1 := by
    have : (i : ℚ) + 1 ≤ (n : ℚ) := by exact_mod_cast Nat.succ_le_of_lt hi
    linarith
  have hmul : (360 / (n : ℚ)) * i ≤ (360 / (n : ℚ)) * ((n : ℚ) - 1) :=
    mul_le_mul_of_nonneg_left hi' (le_of_lt hpos)
  have hid : (360 / (n : ℚ)) * ((n : ℚ) - 1) = 360 - 360 / (n : ℚ) := by
    field_simp
    ring
  have hhalf : (360 / (n : ℚ)) / 2 < 360 / (n : ℚ) := half_lt_self hpos
  rw [segmentCenterOf]
  linarith

/-- C2 (amended): for every wheel size `n ≥ 1`, index `i < n`, and
extra-rotation draw `k ≤ 4`, the total rotation is strictly greater than
`6*360 = 2160` and strictly less than `10*360 + 450 = 4050` degrees. -/
theorem calculateWinningAngle_bounds (n i k : ℕ) (hn : 1 ≤ n) (hi : i < n)
    (hk : k ≤ 4) :
    6 * 360 < calculateWinningAngle n i k ∧
      calculateWinningAngle n i k < 10 * 360 + 450 := by
  have hc := segmentCenterOf_pos n i hn
  have hc' := segmentCenterOf_lt n i hn hi
  have hk' : (k : ℚ) ≤ 4 := by exact_mod_cast hk
  have hk0 : (0 : ℚ) ≤ (k : ℚ) := by positivity
  have hval : calculateWinningAngle n i k =
      (6 + (k : ℚ)) * 360 + (360 - segmentCenterOf n i + 90) := rfl
  rw [hval]
  constructor <;> nlinarith

/-- C2 counterexample: at the reference wheel size 8, index 0 and maximal
draw `k = 4` (all admissible), the total rotation is `4027.5`, exceeding the
claimed inclusive bound `10*360 + 360 = 3960`. -/
theorem calculateWinningAngle_exceeds_claimed_bound :
    ((1 : ℕ) ≤ 8 ∧ (0 : ℕ) < 8 ∧ (4 : ℕ) ≤ 4) ∧
      ¬ calculateWinningAngle 8 0 4 ≤ 10 * 360 + 360 := by
  refine ⟨⟨by norm_num, by norm_num, le_refl 4⟩, ?_⟩
  rw [show calculateWinningAngle 8 0 4 =
      (6 + (4 : ℚ)) * 360 + (360 - segmentCenterOf 8 0 + 90) from rfl]
  rw [segmentCenterOf]
  norm_num

/-- C2 witness: the amended bounds at wheel size 8, index 0, draw 4. -/
theorem calculateWinningAngle_bounds_witness :
    ((1 : ℕ) ≤ 8 ∧ (0 : ℕ) < 8 ∧ (4 : ℕ) ≤ 4) ∧
      (6 * 360 < calculateWinningAngle 8 0 4 ∧
        calculateWinningAngle 8 0 4 < 10 * 360 + 450) :=
  ⟨⟨by norm_num, by norm_num, le_refl 4⟩,
   calculateWinningAngle_bounds 8 0 4 (by norm_num) (by norm_num) (le_refl 4)⟩

/-- The `qmod360` is the identity on `[0, 360)`. -/
theorem qmod360_eq_self (x : ℚ) (h0 : 0 ≤ x) (h1 : x < 360) :
    qmod360 x = x := by
  have hfl : ⌊x / 360⌋ = 0 := by
    rw [Int.floor_eq_zero_iff]
    constructor
    · positivity
    · rw [div_lt_one (by norm_num : (0 : ℚ) < 360)] at *
      linarith
  simp [qmod360, hfl]

/-- The `qmod360` subtracts one turn on `[360, 720)`. -/
theorem qmod360_eq_sub (x : ℚ) (h0 : 360 ≤ x) (h1 : x < 720) :
    qmod360 x = x - 360 := by
  have hfl : ⌊x / 360⌋ = 1 := by
    rw [Int.floor_eq_iff]
    constructor
    · push_cast
      rw [le_div_iff₀ (by norm_num : (0 : ℚ) < 360)]
      linarith
    · push_cast
      rw [div_lt_iff₀ (by norm_num : (0 : ℚ) < 360)]
      linarith
  rw [qmod360, hfl]
  push_cast
  ring

/-- C3 (amended): the code's base alignment angle and the spec's
authoritative center-to-pointer conversion are never congruent modulo 360;
they differ by exactly 180 degrees modulo 360 for every wheel size `n ≥ 1`
and index `i < n`. -/
theorem baseAngle_spec_offset (n i : ℕ) (hn : 1 ≤ n) (hi : i < n) :
    AngleCongruent (baseAngleOf n i) (specPointerConversion n i + 180) := by
  have h0 := segmentCenterOf_pos n i hn
  have h1 := segmentCenterOf_lt n i hn hi
  rcases lt_trichotomy (segmentCenterOf n i) 270 with hlt | heq | hgt
  · have e1 : qmod360 (segmentCenterOf n i + 90) = segmentCenterOf n i + 90 :=
      qmod360_eq_self _ (by linarith) (by linarith)
    have e2 : qmod360 (360 - (segmentCenterOf n i + 90)) =
        360 - (segmentCenterOf n i + 90) :=
      qmod360_eq_self _ (by linarith) (by linarith)
    refine ⟨0, ?_⟩
    rw [baseAngleOf, specPointerConversion, e1, e2]
    push_cast
    ring
  · have e1 : qmod360 (segmentCenterOf n i + 90) = segmentCenterOf n i - 270 :=
      by rw [qmod360_eq_sub _ (by linarith) (by linarith)]; ring
    have e2 : qmod360 (360 - (segmentCenterOf n i - 270)) = 0 := by
      rw [show (360 : ℚ) - (segmentCenterOf n i - 270) = 630 - segmentCenterOf n i
        from by ring]
      rw [heq]
      rw [qmod360_eq_sub _ (by norm_num) (by norm_num)]
      norm_num
    refine ⟨0, ?_⟩
    rw [baseAngleOf, specPointerConversion, e1, e2, heq]
    push_cast
    ring
  · have e1 : qmod360 (segmentCenterOf n i + 90) = segmentCenterOf n i - 270 :=
      by rw [qmod360_eq_sub _ (by linarith) (by linarith)]; ring
    have e2 : qmod360 (360 - (segmentCenterOf n i - 270)) =
        630 - segmentCenterOf n i := by
      rw [show (360 : ℚ) - (segmentCenterOf n i - 270) = 630 - segmentCenterOf n i
        from by ring]
      exact qmod360_eq_self _ (by linarith) (by linarith)
    refine ⟨-1, ?_⟩
    rw [baseAngleOf, specPointerConversion, e1, e2]
    push_cast
    ring

/-- C3 counterexample: at wheel size 8 and index 0 the code's base angle is
`427.5` while the spec's authoritative conversion yields `247.5`; the
difference `180` is not a multiple of 360, so the two formulas are not
congruent modulo 360. -/
theorem baseAngle_not_congruent_spec :
    ((1 : ℕ) ≤ 8 ∧ (0 : ℕ) < 8) ∧
      ¬ AngleCongruent (baseAngleOf 8 0) (specPointerConversion 8 0) := by
  have hbase : baseAngleOf 8 0 = 427.5 := by
    rw [baseAngleOf, segmentCenterOf]
    norm_num
  have hcenter : segmentCenterOf 8 0 + 90 = 112.5 := by
    rw [segmentCenterOf]
    norm_num
  have hspec : specPointerConversion 8 0 = 247.5 := by
    rw [specPointerConversion, hcenter,
      qmod360_eq_self 112.5 (by norm_num) (by norm_num),
      show (360 : ℚ) - 112.5 = 247.5 from by norm_num,
      qmod360_eq_self 247.5 (by norm_num) (by norm_num)]
  refine ⟨⟨by norm_num, by norm_num⟩, ?_⟩
  rintro ⟨k, hk⟩
  rw [hbase, hspec] at hk
  have h2 : ((2 * k : ℤ) : ℚ) = 1 := by push_cast; linarith
  have h3 : (2 * k : ℤ) = 1 := by exact_mod_cast h2
  omega

/-- C3 witness: the 180-degree offset at wheel size 8, index 0. -/
theorem baseAngle_spec_offset_witness :
    ((1 : ℕ) ≤ 8 ∧ (0 : ℕ) < 8) ∧
      AngleCongruent (baseAngleOf 8 0) (specPointerConversion 8 0 + 180) :=
  ⟨⟨by norm_num, by norm_num⟩,
   baseAngle_spec_offset 8 0 (by norm_num) (by norm_num)⟩

/-- Peeling one prize off the cumulative-probability prefix sum. -/
theorem cumProb_cons (p : Prize) (rest : List Prize) (k : ℕ) :
    cumProb (p :: rest) (k + 1) = p.probability + cumProb rest k := by
  simp [cumProb, List.take_succ_cons]

/-- The walk returns `none` exactly when no prefix sum (offset by the
starting accumulator `c`) reaches the random draw. -/
theorem selectPrizeAux_none_iff (random : ℚ) (l : List Prize) : ∀ c : ℚ,
    selectPrizeAux random c l = none ↔
      ∀ j, j < l.length → ¬ random ≤ c + cumProb l (j + 1) := by
  induction l with
  | nil => intro c; simp [selectPrizeAux]
  | cons p rest ih =>
    intro c
    rw [selectPrizeAux]
    by_cases h : random ≤ c + p.probability
    · rw [if_pos h]
      apply iff_of_false
      · simp
      · push_neg
        exact ⟨0, by simp, by simpa [cumProb] using h⟩
    · rw [if_neg h, ih (c + p.probability)]
      constructor
      · intro hall j hj
        cases j with
        | zero => simpa [cumProb] using h
        | succ j' =>
          have hj' : j' < rest.length := by simpa using hj
          have := hall j' hj'
          rw [cumProb_cons]
          intro hcontra
          exact this (by linarith)
      · intro hall j hj
        have := hall (j + 1) (by simpa using Nat.succ_lt_succ hj)
        rw [cumProb_cons] at this
        intro hcontra
        exact this (by linarith)

/-- When the walk returns a prize, it is the table entry at the first index
whose (offset) prefix sum reaches the random draw. -/
theorem selectPrizeAux_some_iff_first (random : ℚ) (l : List Prize) :
    ∀ (c : ℚ) (p : Prize), selectPrizeAux random c l = some p →
      ∃ j, j < l.length ∧ l.get? j = some p ∧
        random ≤ c + cumProb l (j + 1) ∧
        ∀ j' < j, ¬ random ≤ c + cumProb l (j' + 1) := by
  induction l with
  | nil => intro c p h; simp [selectPrizeAux] at h
  | cons q rest ih =>
    intro c p h
    rw [selectPrizeAux] at h
    by_cases hle : random ≤ c + q.probability
    · rw [if_pos hle] at h
      obtain rfl : q = p := Option.some.inj h
      exact ⟨0, by simp, by simp, by simpa [cumProb] using hle,
        fun j' hj' => absurd hj' (Nat.not_lt_zero j')⟩
    · rw [if_neg hle] at h
      obtain ⟨j, hj, hget, hle', hfirst⟩ := ih (c + q.probability) p h
      refine ⟨j + 1, by simpa using Nat.succ_lt_succ hj, by simpa using hget, ?_, ?_⟩
      · rw [cumProb_cons]
        linarith
      · intro j' hj'
        cases j' with
        | zero => simpa [cumProb] using hle
        | succ j'' =>
          have := hfirst j'' (by omega)
          rw [cumProb_cons]
          intro hcontra
          exact this (by linarith)

/-- C4: on a non-empty table, `selectPrize` returns `some` member of the
table; it is the first entry in table order whose cumulative probability
satisfies `random ≤ cumulative`, or the last entry when no prefix sum
reaches the draw. -/
theorem selectPrize_first_match (random : ℚ) (l : List Prize) (h : l ≠ []) :
    ∃ p, selectPrize random l = some p ∧ p ∈ l ∧
      ((∃ j, j < l.length ∧ l.get? j = some p ∧ random ≤ cumProb l (j + 1) ∧
          ∀ j' < j, ¬ random ≤ cumProb l (j' + 1)) ∨
        ((∀ j, j < l.length → ¬ random ≤ cumProb l (j + 1)) ∧
          l.getLast? = some p)) := by
  cases haux : selectPrizeAux random 0 l with
  | some p =>
    obtain ⟨j, hj, hget, hle, hfirst⟩ :=
      selectPrizeAux_some_iff_first random l 0 p haux
    refine ⟨p, by rw [selectPrize, haux], List.get?_mem hget,
      Or.inl ⟨j, hj, hget, by simpa using hle, ?_⟩⟩
    intro j' hj'
    simpa using hfirst j' hj'
  | none =>
    have hall := (selectPrizeAux_none_iff random l 0).mp haux
    have hp : l.getLast? = some (l.getLast h) :=
      List.getLast?_eq_getLast_of_ne_nil h
    refine ⟨l.getLast h, by rw [selectPrize, haux, hp], List.getLast_mem h,
      Or.inr ⟨?_, hp⟩⟩
    intro j hj
    simpa using hall j hj

/-- C4 witness: on the one-entry table `[tryAgainPrize]` with draw `1/2`
(above the entry's probability `0.2`) the fallback returns the last entry. -/
theorem selectPrize_first_match_witness :
    ([tryAgainPrize] ≠ []) ∧
      (∃ p, selectPrize (1 / 2) [tryAgainPrize] = some p ∧ p ∈ [tryAgainPrize] ∧
        ((∃ j, j < ([tryAgainPrize] : List Prize).length ∧
            ([tryAgainPrize] : List Prize).get? j = some p ∧
            (1 / 2 : ℚ) ≤ cumProb [tryAgainPrize] (j + 1) ∧
            ∀ j' < j, ¬ (1 / 2 : ℚ) ≤ cumProb [tryAgainPrize] (j' + 1)) ∨
          ((∀ j, j < ([tryAgainPrize] : List Prize).length →
              ¬ (1 / 2 : ℚ) ≤ cumProb [tryAgainPrize] (j + 1)) ∧
            ([tryAgainPrize] : List Prize).getLast? = some p))) :=
  ⟨by simp, selectPrize_first_match (1 / 2) [tryAgainPrize] (by simp)⟩

/-- C5 (amended): on an empty table the loop body never runs and the code
returns `prizes[prizes.length - 1]`, i.e. the absent value `undefined`
(`none`) — no precondition check fires and no failure is raised. -/
theorem selectPrize_empty (random : ℚ) :
    selectPrize random ([] : List Prize) = none := rfl

/-- C5 counterexample: at the concrete draw `1/2`, `selectPrize` on the
empty table silently returns the absent value (`none`) as if it were a
result, instead of failing fast. -/
theorem selectPrize_empty_silent :
    selectPrize (1 / 2) ([] : List Prize) = none := rfl

/-- C1 (code behaviour at the failing input): winning the zero-discount
"Try Again!" prize on a fresh session creates no coupon and leaves the coupon
state `none`, so `hasUnappliedCoupon` is `false` — but `hasSpun` is also
`false`, not `true` as the spec's scenario requires: the session does not
record that a spin occurred. -/
theorem hasSpun_false_after_zero_discount_spin :
    createCouponFromPrize "ABCD" 0 tryAgainPrize none = (none, none) ∧
    hasUnappliedCoupon (createCouponFromPrize "ABCD" 0 tryAgainPrize none).2 = false ∧
    hasSpun (createCouponFromPrize "ABCD" 0 tryAgainPrize none).2 = false := by
  refine ⟨?_, ?_, ?_⟩ <;> decide

/-- C9: from a non-spinning state over a non-empty table, a spin stores the
selected outcome as the pending marker; the first completion signal reports
exactly that outcome and clears the marker, and a duplicate completion
signal is a no-op that reports nothing. -/
theorem win_reported_exactly_once (random : ℚ) (k : ℕ) (prizes : List Prize)
    (s : WheelState) (hspin : s.isSpinning = false) (hne : prizes ≠ []) :
    ∃ s' p, handleSpin random k prizes s = some s' ∧
      selectPrize random prizes = some p ∧
      s'.selectedPrizeRef = some p ∧ s'.isSpinning = true ∧
      (handleTransitionEnd s').2 = some p ∧
      (handleTransitionEnd s').1.selectedPrizeRef = none ∧
      (handleTransitionEnd s').1.isSpinning = false ∧
      handleTransitionEnd (handleTransitionEnd s').1 =
        ((handleTransitionEnd s').1, none) := by
  obtain ⟨p, hp, -, -⟩ := selectPrize_first_match random prizes hne
  refine ⟨{ rotation := s.rotation +
              calculateWinningAngle prizes.length
                (prizes.findIdx fun q => q.id == p.id) k
            isSpinning := true
            selectedPrizeRef := some p }, p, ?_, hp, rfl, rfl, rfl, rfl, rfl, rfl⟩
  rw [handleSpin, hspin]
  simp [hp]

/-- C9 witness: a spin on the one-entry table from the initial wheel state,
followed by two completion signals. -/
theorem win_reported_exactly_once_witness :
    (initialWheel.isSpinning = false ∧ ([tryAgainPrize] : List Prize) ≠ []) ∧
      (∃ s' p, handleSpin (1 / 2) 0 [tryAgainPrize] initialWheel = some s' ∧
        selectPrize (1 / 2) [tryAgainPrize] = some p ∧
        s'.selectedPrizeRef = some p ∧ s'.isSpinning = true ∧
        (handleTransitionEnd s').2 = some p ∧
        (handleTransitionEnd s').1.selectedPrizeRef = none ∧
        (handleTransitionEnd s').1.isSpinning = false ∧
        handleTransitionEnd (handleTransitionEnd s').1 =
          ((handleTransitionEnd s').1, none)) :=
  ⟨⟨rfl, by simp⟩,
   win_reported_exactly_once (1 / 2) 0 [tryAgainPrize] initialWheel rfl (by simp)⟩

/-- Every positive-discount entry of the shipped prize table carries the
label `"{percent}% Off"`, the exact string the later-apply path rebuilds
from the coupon's percent. -/
theorem prizes_label_pattern :
    ∀ p ∈ PRIZES, 0 < p.discountPercent →
      p.label = toString p.discountPercent ++ "% Off" := by
  decide

/-- C8: for every positive-discount outcome of the prize table, applying
right after winning (`handleApplyDiscount`) and ignoring first and applying
later (`handleApplyUnapplied`) produce identical cart-ledger state —
discount percent, discount label, and hence all derived totals — and
identical coupon state. -/
theorem apply_paths_equivalent (prize : Prize) (hmem : prize ∈ PRIZES)
    (hpos : 0 < prize.discountPercent) (randomChars : String) (now : ℤ)
    (s : PageState) :
    (handleApplyDiscountPage (handleWin randomChars now prize s)).cart =
      (handleApplyUnappliedPage (handleIgnoreDiscountPage
        (handleWin randomChars now prize s))).cart ∧
    finalTotalOf (handleApplyDiscountPage (handleWin randomChars now prize s)).cart =
      finalTotalOf (handleApplyUnappliedPage (handleIgnoreDiscountPage
        (handleWin randomChars now prize s))).cart ∧
    (handleApplyDiscountPage (handleWin randomChars now prize s)).coupon =
      (handleApplyUnappliedPage (handleIgnoreDiscountPage
        (handleWin randomChars now prize s))).coupon := by
  have hlabel := prizes_label_pattern prize hmem hpos
  have hcreate := createCouponFromPrize_pos randomChars now prize s.coupon hpos
  have hcart :
      (handleApplyDiscountPage (handleWin randomChars now prize s)).cart =
        (handleApplyUnappliedPage (handleIgnoreDiscountPage
          (handleWin randomChars now prize s))).cart := by
    simp only [handleWin, handleApplyDiscountPage, handleIgnoreDiscountPage,
      handleApplyUnappliedPage, hcreate, ignoreCoupon, applyCoupon, Option.map_some]
    rw [if_pos hpos]
    simp [hpos, hlabel]
  refine ⟨hcart, by rw [hcart], ?_⟩
  simp only [handleWin, handleApplyDiscountPage, handleIgnoreDiscountPage,
    handleApplyUnappliedPage, hcreate, ignoreCoupon, applyCoupon, Option.map_some]
  rw [if_pos hpos]
  simp [hpos]

/-- C8 witness: both apply paths coincide for the concrete 25%-off prize on
a fresh page state. -/
theorem apply_paths_equivalent_witness :
    (prize25 ∈ PRIZES ∧ 0 < prize25.discountPercent) ∧
      ((handleApplyDiscountPage (handleWin "ABCD" 0 prize25 emptyPage)).cart =
        (handleApplyUnappliedPage (handleIgnoreDiscountPage
          (handleWin "ABCD" 0 prize25 emptyPage))).cart ∧
      finalTotalOf (handleApplyDiscountPage (handleWin "ABCD" 0 prize25 emptyPage)).cart =
        finalTotalOf (handleApplyUnappliedPage (handleIgnoreDiscountPage
          (handleWin "ABCD" 0 prize25 emptyPage))).cart ∧
      (handleApplyDiscountPage (handleWin "ABCD" 0 prize25 emptyPage)).coupon =
        (handleApplyUnappliedPage (handleIgnoreDiscountPage
          (handleWin "ABCD" 0 prize25 emptyPage))).coupon) :=
  ⟨⟨by simp [PRIZES, prize25], by norm_num [prize25]⟩,
   apply_paths_equivalent prize25 (by simp [PRIZES, prize25]) (by norm_num [prize25])
     "ABCD" 0 emptyPage⟩

end SpinWheel
